import Mathlib

/-! Verification of the commit-verify foundation library. The development embeds
the convolve-commit-verify scheme of `commit_verify/src/convolve.rs`, the four
derive entry points of `strict_encoding/derive/src/lib.rs`, and — where only the
module declarations of `commit_verify/src/lib.rs` are available — spec-modelled
versions of `merklize` and of the multi-commit slot placement. -/

namespace ClientSideValidation

/-- One implementation of the `ConvolveCommit` and `ConvolveCommitProof` trait
pair from `commit_verify/src/convolve.rs`: `convolve_commit` embeds the trait
method of the same name (a shared-borrow method returning
`Result<(Commitment, Proof), CommitError>`), `restore_original` and
`extract_supplement` embed the two proof methods (both return their value
directly, with no error case), and the two `verify_eq` fields embed the
`VerifyEq` implementations required of the commitment and the proof types. -/
structure ConvolveScheme (Source Msg Proof Commitment Suppl Error : Type) where
  convolve_commit : Source → Suppl → Msg → Except Error (Commitment × Proof)
  restore_original : Proof → Commitment → Source
  extract_supplement : Proof → Suppl
  commitment_verify_eq : Commitment → Commitment → Bool
  proof_verify_eq : Proof → Proof → Bool

variable {Source Msg Proof Commitment Suppl Error : Type}

/-- Default body of `ConvolveCommitProof::verify` (`convolve.rs`, lines 70-82):
restore the original container from the proof and the commitment, extract the
supplement from the proof, replay `convolve_commit`, propagate its error via the
question-mark operator, and otherwise return the conjunction of the two
verify-equal comparisons. -/
def verify (S : ConvolveScheme Source Msg Proof Commitment Suppl Error)
    (self : Proof) (msg : Msg) (commitment : Commitment) : Except Error Bool :=
  let original := S.restore_original self commitment
  let suppl := S.extract_supplement self
  match S.convolve_commit original suppl msg with
  | Except.error e => Except.error e
  | Except.ok (commitment2, proof) =>
      Except.ok (S.commitment_verify_eq commitment commitment2 &&
        S.proof_verify_eq self proof)

/-- A small concrete instance of the convolve scheme, used only to instantiate
theorems that carry hypotheses: container, supplement, message and commitment
are numbers, the proof stores the original container together with the
supplement, and committing to the message zero fails with error code 7. -/
def toyScheme : ConvolveScheme Nat Nat (Nat × Nat) Nat Nat Nat where
  convolve_commit := fun src sup msg =>
    if msg = 0 then Except.error 7 else Except.ok (src + sup + msg, (src, sup))
  restore_original := fun p _ => p.1
  extract_supplement := fun p => p.2
  commitment_verify_eq := fun a b => a == b
  proof_verify_eq := fun a b => a == b

/-- C1: for every proof `p`, message `m` and presented commitment `c`, the
default `verify` computes the original via `restore_original`, the supplement
via `extract_supplement`, replays `convolve_commit`, and when the replay
returns a commitment and proof pair it returns `Ok` of the conjunction of the
two verify-equal comparisons (commitment against replayed commitment, proof
against replayed proof) — the scheme's `verify_eq`, not raw equality. -/
theorem verify_default_replay
    (S : ConvolveScheme Source Msg Proof Commitment Suppl Error)
    (p : Proof) (m : Msg) (c : Commitment) (c₂ : Commitment) (p₂ : Proof)
    (h : S.convolve_commit (S.restore_original p c) (S.extract_supplement p) m
        = Except.ok (c₂, p₂)) :
    verify S p m c
      = Except.ok (S.commitment_verify_eq c c₂ && S.proof_verify_eq p p₂) := by
  simp only [verify]
  rw [h]

/-- Witness for C1 at the concrete toy scheme. -/
theorem verify_default_replay_witness :
    verify toyScheme (1, 2) 3 6
      = Except.ok (toyScheme.commitment_verify_eq 6 6 &&
          toyScheme.proof_verify_eq (1, 2) (1, 2)) :=
  verify_default_replay toyScheme (1, 2) 3 6 6 (1, 2) rfl

/-- C2: round trip of the convolve scheme. If committing container `C` with
supplement `Sup` to message `M` yields `(c, p)`, the proof restores the
original container and supplement, and both verify-equal relations are
reflexive, then verifying `p` against `M` and `c` returns `Ok true`.
Determinism of the replayed `convolve_commit` is automatic here, since the
embedded operation is a function of its arguments. -/
theorem convolve_commit_roundtrip
    (S : ConvolveScheme Source Msg Proof Commitment Suppl Error)
    (C : Source) (Sup : Suppl) (M : Msg) (c : Commitment) (p : Proof)
    (hcommit : S.convolve_commit C Sup M = Except.ok (c, p))
    (hrestore : S.restore_original p c = C)
    (hsuppl : S.extract_supplement p = Sup)
    (hceq : ∀ x : Commitment, S.commitment_verify_eq x x = true)
    (hpeq : ∀ x : Proof, S.proof_verify_eq x x = true) :
    verify S p M c = Except.ok true := by
  simp only [verify]
  rw [hrestore, hsuppl, hcommit]
  simp [hceq, hpeq]

/-- Witness for C2 at the concrete toy scheme. -/
theorem convolve_commit_roundtrip_witness :
    verify toyScheme (1, 2) 3 6 = Except.ok true :=
  convolve_commit_roundtrip toyScheme 1 2 3 6 (1, 2) rfl rfl rfl
    (fun x => by simp [toyScheme]) (fun x => by simp [toyScheme])

/-- C3: when the replayed `convolve_commit` inside the default `verify` fails,
`verify` returns exactly that error: the typed error is propagated unchanged,
never collapsed to `Ok false`, so a verification mismatch stays distinguishable
from a verification-impossible error. -/
theorem verify_propagates_commit_error
    (S : ConvolveScheme Source Msg Proof Commitment Suppl Error)
    (p : Proof) (m : Msg) (c : Commitment) (e : Error)
    (h : S.convolve_commit (S.restore_original p c) (S.extract_supplement p) m
        = Except.error e) :
    verify S p m c = Except.error e := by
  simp only [verify]
  rw [h]

/-- Witness for C3 at the concrete toy scheme: message zero makes the replay
fail with error code 7, which verify returns unchanged. -/
theorem verify_propagates_commit_error_witness :
    verify toyScheme (1, 2) 0 6 = Except.error 7 :=
  verify_propagates_commit_error toyScheme (1, 2) 0 6 7 rfl

/-- Result of a Rust computation in the panic monad: `none` models a panic
(the `unimplemented!` invocation in the source), `some a` a normal return of
the value `a`. -/
abbrev PanicOr (α : Type) : Type := Option α

/-- The phantom marker method `ConvolveCommit::_phantom` of
`commit_verify/src/convolve.rs`, lines 185-193: it takes a protocol value and
its whole body is an `unimplemented!` invocation, modelled here as an
unconditional panic. -/
def ConvolveCommit_phantom (Protocol : Type) : Protocol → PanicOr Unit :=
  fun _ => none

/-- The default `verify` body written in the panic monad. Every step of the
source body — the two proof-method calls, the replayed `convolve_commit` with
its question-mark propagation, and the final conjunction of the two
verify-equal comparisons — is a non-panicking expression, so each step binds a
`some`. -/
def verifyP (S : ConvolveScheme Source Msg Proof Commitment Suppl Error)
    (self : Proof) (msg : Msg) (commitment : Commitment) :
    PanicOr (Except Error Bool) :=
  Option.bind (some (S.restore_original self commitment)) fun original =>
  Option.bind (some (S.extract_supplement self)) fun suppl =>
  Option.bind (some (S.convolve_commit original suppl msg)) fun r =>
  match r with
  | Except.error e => some (Except.error e)
  | Except.ok (commitment2, proof) =>
      some (Except.ok (S.commitment_verify_eq commitment commitment2 &&
        S.proof_verify_eq self proof))

/-- Caller-visible state across a `convolve_commit` call. The trait method
signature takes `&self`, `&Proof::Suppl` and `&Msg` — shared borrows — and
returns only the `Result`, so the state-passing translation returns the
caller's three values alongside the result. -/
def convolveCommitCall (S : ConvolveScheme Source Msg Proof Commitment Suppl Error)
    (src : Source) (sup : Suppl) (msg : Msg) :
    Except Error (Commitment × Proof) × (Source × Suppl × Msg) :=
  (S.convolve_commit src sup msg, (src, sup, msg))

/-- The default `verify` in state-passing form: the caller's proof, message and
commitment are threaded through the body, which accesses them only through
shared borrows (`&self`, `&Msg`, `&Source::Commitment` in the source) and so
only reads them. -/
def verifyState (S : ConvolveScheme Source Msg Proof Commitment Suppl Error)
    (st : Proof × Msg × Commitment) :
    Except Error Bool × (Proof × Msg × Commitment) :=
  match st with
  | (self, msg, commitment) =>
    let original := S.restore_original self commitment
    let suppl := S.extract_supplement self
    match S.convolve_commit original suppl msg with
    | Except.error e => (Except.error e, (self, msg, commitment))
    | Except.ok (commitment2, proof) =>
        (Except.ok (S.commitment_verify_eq commitment commitment2 &&
            S.proof_verify_eq self proof),
          (self, msg, commitment))

/-- C6: `convolve_commit` and the default `verify` are deterministic pure
functions of their inputs: two runs on equal inputs return identical results.
The embedded operations are plain functions returning only the `Result` value,
which is the translation of the side-effect-free signatures in the source. -/
theorem convolve_commit_verify_deterministic
    (S : ConvolveScheme Source Msg Proof Commitment Suppl Error)
    (src₁ src₂ : Source) (sup₁ sup₂ : Suppl) (m₁ m₂ : Msg)
    (p₁ p₂ : Proof) (c₁ c₂ : Commitment)
    (hsrc : src₁ = src₂) (hsup : sup₁ = sup₂) (hm : m₁ = m₂)
    (hp : p₁ = p₂) (hc : c₁ = c₂) :
    S.convolve_commit src₁ sup₁ m₁ = S.convolve_commit src₂ sup₂ m₂
      ∧ verify S p₁ m₁ c₁ = verify S p₂ m₂ c₂ := by
  subst hsrc hsup hm hp hc
  exact ⟨rfl, rfl⟩

/-- Witness for C6 at the concrete toy scheme. -/
theorem convolve_commit_verify_deterministic_witness :
    toyScheme.convolve_commit 1 2 3 = toyScheme.convolve_commit 1 2 3
      ∧ verify toyScheme (1, 2) 3 6 = verify toyScheme (1, 2) 3 6 :=
  convolve_commit_verify_deterministic toyScheme 1 1 2 2 3 3
    (1, 2) (1, 2) 6 6 rfl rfl rfl rfl rfl

/-- C7: neither operation mutates its inputs. In state-passing form, the
caller's container, supplement and message after a `convolve_commit` call are
the values it held before (the container is read-only during commitment,
unlike the embed-commit scheme), and the caller's proof, message and presented
commitment after a `verify` call are likewise unchanged. -/
theorem convolve_commit_verify_frame
    (S : ConvolveScheme Source Msg Proof Commitment Suppl Error)
    (src : Source) (sup : Suppl) (m : Msg) (p : Proof) (c : Commitment) :
    (convolveCommitCall S src sup m).2 = (src, sup, m)
      ∧ (verifyState S (p, m, c)).2 = (p, m, c) := by
  refine ⟨rfl, ?_⟩
  simp only [verifyState]
  cases S.convolve_commit (S.restore_original p c) (S.extract_supplement p) m with
  | error e => rfl
  | ok v => rfl

/-- C8: the phantom protocol-marker method panics on every invocation, while
the default `verify` never panics on any input: in the panic monad it returns
`some` of the pure verify result for every proof, message and commitment. -/
theorem phantom_panics_and_verify_never_panics
    {Protocol : Type} (S : ConvolveScheme Source Msg Proof Commitment Suppl Error)
    (proto : Protocol) (p : Proof) (m : Msg) (c : Commitment) :
    ConvolveCommit_phantom Protocol proto = none
      ∧ verifyP S p m c = some (verify S p m c) := by
  refine ⟨rfl, ?_⟩
  simp only [verifyP, verify, Option.bind]
  cases S.convolve_commit (S.restore_original p c) (S.extract_supplement p) m with
  | error e => rfl
  | ok v => rfl

/-- C9: `restore_original` and `extract_supplement` are total — their embedded
types return a container and a supplement directly, with no error case — so
the default `verify` always reaches the `convolve_commit` replay, and it
returns an error exactly when the replay does, with the same `CommitError`
value. -/
theorem verify_error_iff_replay_error
    (S : ConvolveScheme Source Msg Proof Commitment Suppl Error)
    (p : Proof) (m : Msg) (c : Commitment) (e : Error) :
    verify S p m c = Except.error e
      ↔ S.convolve_commit (S.restore_original p c) (S.extract_supplement p) m
          = Except.error e := by
  simp only [verify]
  cases h : S.convolve_commit (S.restore_original p c) (S.extract_supplement p) m with
  | error a => simp
  | ok v => cases v with
    | mk c2 p2 => simp

/-- Modelled from the spec: one pairwise combination round of the Merkle
construction (spec section 4.4) — adjacent pairs `(left, right)` are combined
into a parent digest with the tagged-hash combination, halving the length. -/
def combineRound {D : Type} (combine : D → D → D) : List D → List D
  | a :: b :: rest => combine a b :: combineRound combine rest
  | l => l

/-- Modelled from the spec: the given number of pairwise combination rounds. -/
def merklizeRounds {D : Type} (combine : D → D → D) : Nat → List D → List D
  | 0, l => l
  | n + 1, l => merklizeRounds combine n (combineRound combine l)

/-- Modelled from the spec: the source of `merklize` (module `merkle` of the
`commit_verify` crate, re-exported in `commit_verify/src/lib.rs`, lines 50-52)
is not under `src/`; only its declaration is. Spec section 4.4: pad the
ordered sequence of tagged leaf digests on the right with the tag-derived
empty-node digest until its length is a power of two (a single leaf is already
one, a tree of depth zero), then repeatedly combine adjacent pairs with the
tagged-hash combination, halving the length each round, until one digest — the
root — remains. The combination function and the empty-node digest are
parameters, since the hash primitive is an external capability. -/
def merklize {D : Type} (combine : D → D → D) (empty : D) (leaves : List D) : D :=
  let depth := Nat.clog 2 (max leaves.length 1)
  let padded := leaves ++ List.replicate (2 ^ depth - leaves.length) empty
  (merklizeRounds combine depth padded).headD empty

/-- C5: merklize applied to a one-leaf sequence returns that single tagged leaf
digest, performing no pairwise combination round: the result is the leaf digest
itself, independent of the combination function. -/
theorem merklize_single_leaf {D : Type} (combine : D → D → D) (empty : D)
    (d : D) : merklize combine empty [d] = d := by
  simp [merklize, merklizeRounds, Nat.clog_one_right]

/-- Modelled from the spec: slot occupancy test of the multi-commit block's
slot table — a slot holds either a real item (`some`) or is still free
(`none`). -/
def slotOccupied {A : Type} (slots : List (Option A)) (j : Nat) : Bool :=
  match slots.get? j with
  | some (some _) => true
  | _ => false

/-- Modelled from the spec: the linear probe of `MultiCommitBlock` construction
(spec section 4.5; the `multi_commit` module is re-exported in
`commit_verify/src/lib.rs`, line 53, but its source is not under `src/`).
Starting from the candidate index, if the slot is occupied advance to the next
index modulo the slot count until a free slot is found; the fuel argument
bounds the scan by the slot count, so a fully occupied table yields `none`
(capacity exhaustion, a hard construction error). -/
def probeFrom {A : Type} (slots : List (Option A)) : Nat → Nat → Option Nat
  | _, 0 => none
  | idx, fuel + 1 =>
      match slots.get? (idx % slots.length) with
      | some none => some (idx % slots.length)
      | _ => probeFrom slots (idx + 1) fuel

/-- Modelled from the spec: place one `MultiCommitItem` with protocol
identifier `p` into the slot table. The candidate slot index is
`tagged_hash p mod slot_count`; collisions are resolved by the deterministic
linear probe. -/
def insertItem {P D : Type} (taggedHash : P → Nat)
    (slots : List (Option (P × D))) (item : P × D) :
    Option (List (Option (P × D))) :=
  match probeFrom slots (taggedHash item.1 % slots.length) slots.length with
  | none => none
  | some j => some (slots.set j (some item))

/-- Modelled from the spec: construct the slot table of a `MultiCommitBlock`
by inserting the items in their given canonical order into an initially empty
table of the requested slot count. -/
def buildBlock {P D : Type} (taggedHash : P → Nat) (slotCount : Nat)
    (items : List (P × D)) : Option (List (Option (P × D))) :=
  items.foldlM (fun slots item => insertItem taggedHash slots item)
    (List.replicate slotCount (none : Option (P × D)))

/-- If an occupancy test succeeds, the slot really holds an item. -/
lemma slotOccupied_eq_some {A : Type} (slots : List (Option A)) (j : Nat)
    (h : slotOccupied slots j = true) : ∃ a, slots.get? j = some (some a) := by
  unfold slotOccupied at h
  cases hg : slots.get? j with
  | none => rw [hg] at h; exact absurd h (by simp)
  | some o => cases o with
    | none => rw [hg] at h; exact absurd h (by simp)
    | some a => exact ⟨a, rfl⟩

/-- The probe starting at `start` returns the first free index of the scan
sequence `start, start + 1, ...` taken modulo the table length. -/
lemma probeFrom_first_free {A : Type} (slots : List (Option A)) :
    ∀ (k start fuel : Nat), k < fuel →
      (∀ i, i < k → slotOccupied slots ((start + i) % slots.length) = true) →
      slots.get? ((start + k) % slots.length) = some none →
      probeFrom slots start fuel = some ((start + k) % slots.length) := by
  intro k
  induction k with
  | zero =>
    intro start fuel hfuel _ hfree
    cases fuel with
    | zero => exact absurd hfuel (by omega)
    | succ f =>
      have hfree0 : slots.get? (start % slots.length) = some none := by
        simpa using hfree
      have hrun : probeFrom slots start (f + 1) = some (start % slots.length) := by
        simp only [probeFrom, hfree0]
      simpa using hrun
  | succ k ih =>
    intro start fuel hfuel hocc hfree
    cases fuel with
    | zero => exact absurd hfuel (by omega)
    | succ f =>
      obtain ⟨a, ha⟩ := slotOccupied_eq_some slots (start % slots.length)
        (by have h0 := hocc 0 (by omega); rwa [Nat.add_zero] at h0)
      have hstep : probeFrom slots start (f + 1)
          = probeFrom slots (start + 1) f := by
        simp only [probeFrom, ha]
      rw [hstep]
      have hshift : start + 1 + k = start + (k + 1) := by omega
      have := ih (start + 1) f (by omega)
        (fun i hi => by
          have h := hocc (i + 1) (by omega)
          have : start + (i + 1) = start + 1 + i := by omega
          rwa [this] at h)
        (by rwa [hshift])
      rwa [hshift] at this

/-- C4: in the multi-commit block construction, an item with protocol
identifier `p` has candidate slot index `tagged_hash p mod slot_count`, and it
is placed by deterministic linear probing: if the first `k` indices of the
scan sequence starting at the candidate are occupied and the next one is free,
the item lands exactly at index `(tagged_hash p mod n + k) mod n`. Re-deriving
the table from the same inputs reproduces identical slot contents, since the
embedded construction is a function of the tagged hash, the table and the
item. -/
theorem multi_commit_slot_placement {P D : Type} (taggedHash : P → Nat)
    (slots : List (Option (P × D))) (p : P) (d : D) (k : Nat)
    (hk : k < slots.length)
    (hocc : ∀ i, i < k →
      slotOccupied slots ((taggedHash p % slots.length + i) % slots.length)
        = true)
    (hfree : slots.get? ((taggedHash p % slots.length + k) % slots.length)
        = some none) :
    insertItem taggedHash slots (p, d)
      = some (slots.set ((taggedHash p % slots.length + k) % slots.length)
          (some (p, d))) := by
  unfold insertItem
  rw [probeFrom_first_free slots k (taggedHash p % slots.length) slots.length
    hk hocc hfree]

/-- Witness for C4: slot count four, tagged hash the identity, protocol
identifier 1 whose candidate slot 1 is occupied, so the item probes forward
and lands in slot 2 (the example of spec section 8). -/
theorem multi_commit_slot_placement_witness :
    insertItem (fun p => p)
        [some (9, 9), some (8, 8), none, none] ((1 : Nat), (5 : Nat))
      = some [some (9, 9), some (8, 8), some (1, 5), none] :=
  multi_commit_slot_placement (fun p => p)
    [some (9, 9), some (8, 8), none, none] 1 5 1
    (by decide) (by decide) (by decide)

/-- Arguments that the four derive entry points of
`strict_encoding/derive/src/lib.rs` pass to the shared helpers
`encode_derive` and `decode_derive` of the `encoding_derive_helpers` crate,
in source order: the attribute namespace string, the crate identifier, the
trait identifier, the per-value method identifier, the serialization method
identifier, and the TLV-extension flag. -/
structure DeriveArgs where
  attrName : String
  crateName : String
  traitName : String
  methodName : String
  serializeName : String
  useTlv : Bool

/-- Shared shape of the four derive entry points: parse the input, run the
helper on the arguments, and map a failure to its compile-error token stream
(the `unwrap_or_else` with `to_compile_error` in the source). -/
def runDerive {Input Err Output : Type}
    (helper : DeriveArgs → Input → Except Err Output)
    (toCompileError : Err → Output) (args : DeriveArgs) (input : Input) :
    Output :=
  match helper args input with
  | Except.ok out => out
  | Except.error e => toCompileError e

/-- Arguments passed by `derive_strict_encode` (lines 220-235). -/
def strictEncodeArgs : DeriveArgs :=
  ⟨"strict_encoding", "strict_encoding", "StrictEncode", "strict_encode",
    "strict_serialize", false⟩

/-- Arguments passed by `derive_strict_decode` (lines 237-252). -/
def strictDecodeArgs : DeriveArgs :=
  ⟨"strict_encoding", "strict_encoding", "StrictDecode", "strict_decode",
    "strict_deserialize", false⟩

/-- Arguments passed by `derive_network_encode` (lines 254-270). -/
def networkEncodeArgs : DeriveArgs :=
  ⟨"network_encoding", "strict_encoding", "StrictEncode", "strict_encode",
    "strict_serialize", true⟩

/-- Arguments passed by `derive_network_decode` (lines 272-288). -/
def networkDecodeArgs : DeriveArgs :=
  ⟨"network_encoding", "strict_encoding", "StrictDecode", "strict_decode",
    "strict_deserialize", true⟩

/-- The `StrictEncode` derive entry point, parameterized by the external
`encode_derive` helper and the compile-error conversion. -/
def derive_strict_encode {Input Err Output : Type}
    (encodeDerive : DeriveArgs → Input → Except Err Output)
    (toCompileError : Err → Output) (input : Input) : Output :=
  runDerive encodeDerive toCompileError strictEncodeArgs input

/-- The `StrictDecode` derive entry point, parameterized by the external
`decode_derive` helper and the compile-error conversion. -/
def derive_strict_decode {Input Err Output : Type}
    (decodeDerive : DeriveArgs → Input → Except Err Output)
    (toCompileError : Err → Output) (input : Input) : Output :=
  runDerive decodeDerive toCompileError strictDecodeArgs input

/-- The `NetworkEncode` derive entry point, parameterized by the external
`encode_derive` helper and the compile-error conversion. -/
def derive_network_encode {Input Err Output : Type}
    (encodeDerive : DeriveArgs → Input → Except Err Output)
    (toCompileError : Err → Output) (input : Input) : Output :=
  runDerive encodeDerive toCompileError networkEncodeArgs input

/-- The `NetworkDecode` derive entry point, parameterized by the external
`decode_derive` helper and the compile-error conversion. -/
def derive_network_decode {Input Err Output : Type}
    (decodeDerive : DeriveArgs → Input → Except Err Output)
    (toCompileError : Err → Output) (input : Input) : Output :=
  runDerive decodeDerive toCompileError networkDecodeArgs input

/-- Replace the attribute namespace by `network_encoding` and raise the
TLV-extension flag, leaving every other helper argument unchanged. -/
def networkRetag (a : DeriveArgs) : DeriveArgs :=
  ⟨"network_encoding", a.crateName, a.traitName, a.methodName,
    a.serializeName, true⟩

/-- C10: the network derives call the same shared helpers with the same crate,
trait and method identifiers as the strict derives — the `NetworkEncode` and
`NetworkDecode` derives generate implementations of the very same
`StrictEncode` and `StrictDecode` traits with the same `strict_encode`,
`strict_serialize`, `strict_decode` and `strict_deserialize` methods — and for
every helper and every input their behavior equals the strict entry point run
with the attribute namespace replaced by `network_encoding` and the TLV flag
raised to true: those two arguments are the only differences. -/
theorem network_derive_matches_strict :
    networkEncodeArgs = networkRetag strictEncodeArgs
      ∧ networkDecodeArgs = networkRetag strictDecodeArgs
      ∧ (∀ {Input Err Output : Type}
          (encodeDerive : DeriveArgs → Input → Except Err Output)
          (toCompileError : Err → Output) (input : Input),
          derive_network_encode encodeDerive toCompileError input
            = derive_strict_encode (fun a => encodeDerive (networkRetag a))
                toCompileError input)
      ∧ (∀ {Input Err Output : Type}
          (decodeDerive : DeriveArgs → Input → Except Err Output)
          (toCompileError : Err → Output) (input : Input),
          derive_network_decode decodeDerive toCompileError input
            = derive_strict_decode (fun a => decodeDerive (networkRetag a))
                toCompileError input) := by
  refine ⟨rfl, rfl, ?_, ?_⟩ <;> intros <;> rfl

end ClientSideValidation
